import Mathlib

/-!
Verification of the capability registry / invocation dispatcher of the
MCP_Server repository, as a shallow embedding in Lean 4.

The embedded Python source files:
  * `src/handlers/base_tool.py`   — `MCPTool.__init__`, `MCPTool.log_call`,
    `MCPTool.get_stats` (per-capability telemetry);
  * `src/handlers/data_tools.py`  — `CalculatorTool.execute`,
    `JSONProcessorTool.execute`;
  * `src/handlers/office_tools.py` — `EmailIntegrationTool.execute`;
  * `src/simple_server.py`        — `SimpleToolRegistry.execute_tool`
    (the dispatcher).

Python `datetime.now()` timestamps are modelled as an explicit `Nat` clock
value passed to every operation; mutation of a tool object is modelled by
explicit state passing (`MCPToolState` in, `MCPToolState` out); a raised
Python exception is modelled as the `.error` branch of `Except String`.
-/

namespace MCPServer

/-- One entry of `MCPTool.errors`: the dict
`{"time": self.last_called, "error": error}` appended by `log_call`. -/
structure ErrorEntry where
  time : Nat
  error : String
deriving DecidableEq, Repr

/-- The mutable state of one `MCPTool` instance, as set up by
`MCPTool.__init__` in `base_tool.py`: `name`, `description`, `call_count`,
`last_called` and the internal `errors` list. -/
structure MCPToolState where
  name : String
  description : String
  call_count : Nat
  last_called : Option Nat
  errors : List ErrorEntry
deriving DecidableEq, Repr

/-- `MCPTool.__init__(name, description)`: counters start at zero, no last
call, empty error list. -/
def MCPTool_init (name description : String) : MCPToolState :=
  { name := name, description := description, call_count := 0,
    last_called := none, errors := [] }

/-- Python truthiness of the optional `error` argument of `log_call`
(`if not success and error:`): `None` and the empty string are falsy, every
non-empty string is truthy. -/
def pyTruthyStr : Option String → Bool
  | none => false
  | some s => !s.isEmpty

/-- `MCPTool.log_call(success, error)` from `base_tool.py`: increments
`call_count`, sets `last_called` to the current time, and — only when
`success` is false AND `error` is truthy — appends
`{"time": self.last_called, "error": error}` to the internal `errors`
list. The list is never truncated here. -/
def log_call (st : MCPToolState) (now : Nat) (success : Bool)
    (error : Option String) : MCPToolState :=
  let st1 : MCPToolState :=
    { st with call_count := st.call_count + 1, last_called := some now }
  if !success && pyTruthyStr error then
    { st1 with errors := st1.errors ++ [{ time := now, error := error.getD "" }] }
  else
    st1

/-- The dict returned by `MCPTool.get_stats`. -/
structure ToolStats where
  name : String
  call_count : Nat
  last_called : Option Nat
  error_count : Nat
  recent_errors : List ErrorEntry
deriving DecidableEq, Repr

/-- `MCPTool.get_stats` from `base_tool.py`: `error_count` is the length of
the FULL internal `errors` list, while `recent_errors` is the Python slice
`self.errors[-3:] if self.errors else []`.  For a list `l`,
`l[-3:] = l.drop (l.length - 3)` (with truncated `Nat` subtraction this is
the whole list when `l.length ≤ 3`). -/
def get_stats (st : MCPToolState) : ToolStats :=
  { name := st.name, call_count := st.call_count, last_called := st.last_called,
    error_count := st.errors.length,
    recent_errors :=
      if st.errors.isEmpty then [] else st.errors.drop (st.errors.length - 3) }

/-- Running a whole history of `log_call` telemetry updates, oldest first,
from a given state. -/
def run_log_calls (st : MCPToolState) (ops : List (Nat × Bool × Option String)) :
    MCPToolState :=
  ops.foldl (fun s op => log_call s op.1 op.2.1 op.2.2) st

/-- A Python/JSON value as the tools pass them around: ints, floats
(modelled as exact rationals — no tool under verification performs float
rounding), strings, booleans, `None`, lists and string-keyed dicts
(a dict is the list of its key/value pairs in insertion order). -/
inductive PyVal where
  | vint : Int → PyVal
  | vfloat : Rat → PyVal
  | vstr : String → PyVal
  | vbool : Bool → PyVal
  | vnull : PyVal
  | vlist : List PyVal → PyVal
  | vdict : List (String × PyVal) → PyVal

/-- Python's `type(v).__name__` for the modelled values. -/
def pyTypeName : PyVal → String
  | .vint _ => "int"
  | .vfloat _ => "float"
  | .vstr _ => "str"
  | .vbool _ => "bool"
  | .vnull => "NoneType"
  | .vlist _ => "list"
  | .vdict _ => "dict"

/-- The dict every tool returns: a `"success"` flag plus the remaining
key/value fields (`"error"`, `"result"`, `"expression"`, …). -/
structure ToolResult where
  success : Bool
  fields : List (String × PyVal)

/-- Field lookup in a tool's result dict. -/
def ToolResult.get (r : ToolResult) (key : String) : Option PyVal :=
  r.fields.lookup key

/-! ## The calculator's expression evaluator

`CalculatorTool.execute` passes the expression to Python's builtin `eval`
after the character whitelist check.  On the whitelisted character set
(`0123456789+-*/()., `) an expression is arithmetic, which we embed as a
tokenizer plus a recursive-descent parser/evaluator with Python semantics:
`int` op `int` stays `int` except true division `/`, which always yields a
float; floats are modelled as exact rationals; division by zero raises.
Tuple displays (comma expressions), which `eval` would also accept on this
character set, are not modelled and are mapped to an error — no claim and
no spec scenario exercises them. -/

/-- Tokens of the arithmetic subset. -/
inductive CalcTok where
  | num : PyVal → CalcTok
  | plus | minus | star | slash | lparen | rparen | comma

/-- Digits to a natural number, most significant first. -/
def digitsToNat (ds : List Char) : Nat :=
  ds.foldl (fun a c => a * 10 + (c.toNat - 48)) 0

/-- A numeric literal from its characters (digits and dots): an `int` when
there is no dot, a float for one dot, a syntax error for more. -/
def numFromChars (ds : List Char) : Except String PyVal :=
  let dots := ds.filter (fun c => c = '.')
  let digits := ds.filter Char.isDigit
  if digits.isEmpty then .error "invalid syntax"
  else if dots.length = 0 then .ok (.vint (digitsToNat ds))
  else if dots.length = 1 then
    let intPart := ds.takeWhile (fun c => c ≠ '.')
    let fracPart := (ds.dropWhile (fun c => c ≠ '.')).drop 1
    .ok (.vfloat ((digitsToNat intPart : Rat) +
      (digitsToNat fracPart : Rat) / ((10 : Rat) ^ fracPart.length)))
  else .error "invalid syntax"

/-- Tokenizer over the calculator's whitelisted characters; `fuel` bounds
the recursion (one character is consumed per step, so `cs.length` fuel
suffices). -/
def tokenizeCalc (fuel : Nat) (cs : List Char) : Except String (List CalcTok) :=
  match fuel, cs with
  | _, [] => .ok []
  | 0, _ => .error "internal: tokenizer fuel exhausted"
  | fuel + 1, c :: cs =>
    if c = ' ' then tokenizeCalc fuel cs
    else if c = '+' then do pure (.plus :: (← tokenizeCalc fuel cs))
    else if c = '-' then do pure (.minus :: (← tokenizeCalc fuel cs))
    else if c = '*' then do pure (.star :: (← tokenizeCalc fuel cs))
    else if c = '/' then do pure (.slash :: (← tokenizeCalc fuel cs))
    else if c = '(' then do pure (.lparen :: (← tokenizeCalc fuel cs))
    else if c = ')' then do pure (.rparen :: (← tokenizeCalc fuel cs))
    else if c = ',' then do pure (.comma :: (← tokenizeCalc fuel cs))
    else if c.isDigit || c = '.' then
      let isNumChar : Char → Bool := fun d => d.isDigit || d = '.'
      let ds := c :: cs.takeWhile isNumChar
      let rest := cs.dropWhile isNumChar
      do pure (.num (← numFromChars ds) :: (← tokenizeCalc fuel rest))
    else .error ("invalid character " ++ c.toString)

/-- Python numeric addition on the modelled values: `int + int = int`, any
float operand makes a float; non-numbers raise a `TypeError`. -/
def pyAdd : PyVal → PyVal → Except String PyVal
  | .vint a, .vint b => .ok (.vint (a + b))
  | .vint a, .vfloat b => .ok (.vfloat ((a : Rat) + b))
  | .vfloat a, .vint b => .ok (.vfloat (a + (b : Rat)))
  | .vfloat a, .vfloat b => .ok (.vfloat (a + b))
  | _, _ => .error "unsupported operand type(s) for +"

/-- Python numeric subtraction, promotion as in `pyAdd`. -/
def pySub : PyVal → PyVal → Except String PyVal
  | .vint a, .vint b => .ok (.vint (a - b))
  | .vint a, .vfloat b => .ok (.vfloat ((a : Rat) - b))
  | .vfloat a, .vint b => .ok (.vfloat (a - (b : Rat)))
  | .vfloat a, .vfloat b => .ok (.vfloat (a - b))
  | _, _ => .error "unsupported operand type(s) for -"

/-- Python numeric multiplication, promotion as in `pyAdd`. -/
def pyMul : PyVal → PyVal → Except String PyVal
  | .vint a, .vint b => .ok (.vint (a * b))
  | .vint a, .vfloat b => .ok (.vfloat ((a : Rat) * b))
  | .vfloat a, .vint b => .ok (.vfloat (a * (b : Rat)))
  | .vfloat a, .vfloat b => .ok (.vfloat (a * b))
  | _, _ => .error "unsupported operand type(s) for *"

/-- Python true division `/`: always a float, `ZeroDivisionError` on a zero
divisor. -/
def pyDiv (a b : PyVal) : Except String PyVal :=
  match a, b with
  | .vint a, .vint b =>
    if b = 0 then .error "division by zero" else .ok (.vfloat ((a : Rat) / (b : Rat)))
  | .vint a, .vfloat b =>
    if b = 0 then .error "float division by zero" else .ok (.vfloat ((a : Rat) / b))
  | .vfloat a, .vint b =>
    if b = 0 then .error "float division by zero" else .ok (.vfloat (a / (b : Rat)))
  | .vfloat a, .vfloat b =>
    if b = 0 then .error "float division by zero" else .ok (.vfloat (a / b))
  | _, _ => .error "unsupported operand type(s) for /"

/-- Python unary minus on numbers. -/
def pyNeg : PyVal → Except String PyVal
  | .vint a => .ok (.vint (-a))
  | .vfloat a => .ok (.vfloat (-a))
  | _ => .error "bad operand type for unary -"

mutual

/-- `expr := term (('+'|'-') term)*` — fuel-bounded recursive descent. -/
def parseExpr : Nat → List CalcTok → Except String (PyVal × List CalcTok)
  | 0, _ => .error "internal: parser fuel exhausted"
  | fuel + 1, ts => do
    let (v, ts) ← parseTerm fuel ts
    parseExprRest fuel v ts

/-- The left-associative `+`/`-` chain after a first term. -/
def parseExprRest : Nat → PyVal → List CalcTok → Except String (PyVal × List CalcTok)
  | 0, _, _ => .error "internal: parser fuel exhausted"
  | fuel + 1, v, .plus :: ts => do
    let (w, ts) ← parseTerm fuel ts
    parseExprRest fuel (← pyAdd v w) ts
  | fuel + 1, v, .minus :: ts => do
    let (w, ts) ← parseTerm fuel ts
    parseExprRest fuel (← pySub v w) ts
  | _ + 1, v, ts => .ok (v, ts)

/-- `term := factor (('*'|'/') factor)*`. -/
def parseTerm : Nat → List CalcTok → Except String (PyVal × List CalcTok)
  | 0, _ => .error "internal: parser fuel exhausted"
  | fuel + 1, ts => do
    let (v, ts) ← parseFactor fuel ts
    parseTermRest fuel v ts

/-- The left-associative `*`/`/` chain after a first factor. -/
def parseTermRest : Nat → PyVal → List CalcTok → Except String (PyVal × List CalcTok)
  | 0, _, _ => .error "internal: parser fuel exhausted"
  | fuel + 1, v, .star :: ts => do
    let (w, ts) ← parseFactor fuel ts
    parseTermRest fuel (← pyMul v w) ts
  | fuel + 1, v, .slash :: ts => do
    let (w, ts) ← parseFactor fuel ts
    parseTermRest fuel (← pyDiv v w) ts
  | _ + 1, v, ts => .ok (v, ts)

/-- `factor := ('+'|'-') factor | number | '(' expr ')'`. -/
def parseFactor : Nat → List CalcTok → Except String (PyVal × List CalcTok)
  | 0, _ => .error "internal: parser fuel exhausted"
  | fuel + 1, .minus :: ts => do
    let (v, ts) ← parseFactor fuel ts
    pure ((← pyNeg v), ts)
  | fuel + 1, .plus :: ts => do
    let (v, ts) ← parseFactor fuel ts
    match v with
    | .vint _ => pure (v, ts)
    | .vfloat _ => pure (v, ts)
    | _ => .error "bad operand type for unary +"
  | _ + 1, .num v :: ts => .ok (v, ts)
  | fuel + 1, .lparen :: ts => do
    let (v, ts) ← parseExpr fuel ts
    match ts with
    | .rparen :: ts => .ok (v, ts)
    | _ => .error "invalid syntax"
  | _ + 1, _ => .error "invalid syntax"

end

/-- Modelled from Python's builtin `eval`, restricted to the calculator's
whitelisted character set: arithmetic over int and float literals with
`+ - * /`, unary signs and parentheses (see the section comment above for
what is abstracted).  The fuel `4 * length + 4` strictly dominates the
recursion depth of the parser on its token list. -/
def pyEval (s : String) : Except String PyVal := do
  let cs := s.toList
  let ts ← tokenizeCalc (cs.length + 1) cs
  if ts.isEmpty then .error "invalid syntax: unexpected EOF while parsing"
  else
    let (v, rest) ← parseExpr (4 * ts.length + 4) ts
    match rest with
    | [] => .ok v
    | .comma :: _ => .error "tuple expressions are outside the model"
    | _ => .error "invalid syntax"

/-- The character whitelist of `CalculatorTool.execute`:
`set('0123456789+-*/()., ')`. -/
def calc_allowed_chars : List Char := "0123456789+-*/()., ".toList

/-- `CalculatorTool.execute(expression)` from `data_tools.py`: reject the
expression with a logged failure if it holds a character outside the
whitelist; otherwise `eval` it — a successful evaluation is logged as a
success and returned with the `"result"` field, an exception from `eval`
is caught and logged as `"Calculation error: …"`. -/
def calculator_execute (st : MCPToolState) (now : Nat) (expression : String) :
    ToolResult × MCPToolState :=
  if !(expression.toList.all (fun c => calc_allowed_chars.contains c)) then
    ({ success := false,
       fields := [("error", .vstr "Expression contains invalid characters")] },
     log_call st now false (some "Invalid characters in expression"))
  else
    match pyEval expression with
    | .ok v =>
      ({ success := true,
         fields := [("expression", .vstr expression), ("result", v)] },
       log_call st now true none)
    | .error e =>
      let error_msg := "Calculation error: " ++ e
      ({ success := false, fields := [("error", .vstr error_msg)] },
       log_call st now false (some error_msg))

/-- `CalculatorTool.__init__` from `data_tools.py`. -/
def CalculatorTool_init : MCPToolState :=
  MCPTool_init "calculator" "Perform mathematical calculations"

/-! ## JSON parsing and serialization

`JSONProcessorTool.execute` calls the Python library functions
`json.loads` and `json.dumps(·, indent=2)`.  They are embedded below for
the JSON fragment the tool's claims exercise: objects, arrays, strings
with the simple escapes, integer numbers, `true`/`false`/`null`.  Float
and exponent number literals are mapped to a decode error (no claim and no
spec scenario feeds the tool a float literal). -/

/-- JSON insignificant whitespace. -/
def jsonSkipWs (cs : List Char) : List Char :=
  cs.dropWhile (fun c => c = ' ' || c = '\n' || c = '\t' || c = '\r')

/-- A JSON string body after the opening quote: the characters up to the
closing quote, decoding the single-character escapes. -/
def jsonStringBody (fuel : Nat) (cs : List Char) : Except String (String × List Char) :=
  match fuel, cs with
  | _, '\x22' :: rest => .ok ("", rest)
  | 0, _ => .error "internal: json fuel exhausted"
  | fuel + 1, '\\' :: e :: rest =>
    let dec : Except String Char :=
      if e = 'n' then .ok '\n'
      else if e = 't' then .ok '\t'
      else if e = 'r' then .ok '\r'
      else if e = '\\' then .ok '\\'
      else if e = '/' then .ok '/'
      else if e = '\x22' then .ok '\x22'
      else .error "Invalid \\escape"
    do
      let c ← dec
      let (s, rest) ← jsonStringBody fuel rest
      .ok (c.toString ++ s, rest)
  | fuel + 1, c :: rest => do
    let (s, rest) ← jsonStringBody fuel rest
    .ok (c.toString ++ s, rest)
  | _, [] => .error "Unterminated string"

mutual

/-- One JSON value, fuel-bounded. -/
def jsonValue : Nat → List Char → Except String (PyVal × List Char)
  | 0, _ => .error "internal: json fuel exhausted"
  | fuel + 1, cs =>
    match jsonSkipWs cs with
    | [] => .error "Expecting value"
    | '{' :: rest => jsonObject fuel (jsonSkipWs rest)
    | '[' :: rest => jsonArray fuel (jsonSkipWs rest)
    | '\x22' :: rest => do
      let (s, rest) ← jsonStringBody fuel rest
      .ok (.vstr s, rest)
    | c :: rest =>
      if ['t', 'r', 'u', 'e'].isPrefixOf (c :: rest) then
        .ok (.vbool true, (c :: rest).drop 4)
      else if ['f', 'a', 'l', 's', 'e'].isPrefixOf (c :: rest) then
        .ok (.vbool false, (c :: rest).drop 5)
      else if ['n', 'u', 'l', 'l'].isPrefixOf (c :: rest) then
        .ok (.vnull, (c :: rest).drop 4)
      else if c = '-' || c.isDigit then
        let sign : Int := if c = '-' then -1 else 1
        let body := if c = '-' then rest else c :: rest
        let ds := body.takeWhile Char.isDigit
        let after := body.dropWhile Char.isDigit
        if ds.isEmpty then .error "Expecting value"
        else
          match after with
          | '.' :: _ => .error "float literals are outside the model"
          | 'e' :: _ => .error "float literals are outside the model"
          | 'E' :: _ => .error "float literals are outside the model"
          | _ => .ok (.vint (sign * (digitsToNat ds : Int)), after)
      else .error "Expecting value"

/-- The inside of a JSON object, after `{` and whitespace. -/
def jsonObject : Nat → List Char → Except String (PyVal × List Char)
  | 0, _ => .error "internal: json fuel exhausted"
  | fuel + 1, cs =>
    match cs with
    | '}' :: rest => .ok (.vdict [], rest)
    | _ => jsonMembers fuel cs []

/-- The members of a non-empty JSON object. -/
def jsonMembers : Nat → List Char → List (String × PyVal) →
    Except String (PyVal × List Char)
  | 0, _, _ => .error "internal: json fuel exhausted"
  | fuel + 1, cs, acc =>
    match jsonSkipWs cs with
    | '\x22' :: rest => do
      let (key, rest) ← jsonStringBody fuel rest
      match jsonSkipWs rest with
      | ':' :: rest => do
        let (v, rest) ← jsonValue fuel rest
        match jsonSkipWs rest with
        | ',' :: rest => jsonMembers fuel rest (acc ++ [(key, v)])
        | '}' :: rest => .ok (.vdict (acc ++ [(key, v)]), rest)
        | _ => .error "Expecting ',' delimiter"
      | _ => .error "Expecting ':' delimiter"
    | _ => .error "Expecting property name enclosed in double quotes"

/-- The inside of a JSON array, after `[` and whitespace. -/
def jsonArray : Nat → List Char → Except String (PyVal × List Char)
  | 0, _ => .error "internal: json fuel exhausted"
  | fuel + 1, cs =>
    match cs with
    | ']' :: rest => .ok (.vlist [], rest)
    | _ => jsonElements fuel cs []

/-- The elements of a non-empty JSON array. -/
def jsonElements : Nat → List Char → List PyVal →
    Except String (PyVal × List Char)
  | 0, _, _ => .error "internal: json fuel exhausted"
  | fuel + 1, cs, acc => do
    let (v, rest) ← jsonValue fuel cs
    match jsonSkipWs rest with
    | ',' :: rest => jsonElements fuel rest (acc ++ [v])
    | ']' :: rest => .ok (.vlist (acc ++ [v]), rest)
    | _ => .error "Expecting ',' delimiter"

end

/-- Modelled from Python's `json.loads` on the JSON fragment described in
the section comment. -/
def json_loads (s : String) : Except String PyVal := do
  let cs := s.toList
  let (v, rest) ← jsonValue (4 * cs.length + 4) cs
  match jsonSkipWs rest with
  | [] => .ok v
  | _ => .error "Extra data"

/-- A JSON string literal for `json.dumps`: quote and escape. -/
def jsonQuote (s : String) : String :=
  "\x22" ++ String.join (s.toList.map (fun c =>
    if c = '\x22' then "\\\x22"
    else if c = '\\' then "\\\\"
    else if c = '\n' then "\\n"
    else if c = '\t' then "\\t"
    else if c = '\r' then "\\r"
    else c.toString)) ++ "\x22"

/-- `2 * ind` spaces of indentation for `json.dumps(·, indent=2)`. -/
def indentSpaces (ind : Nat) : String :=
  String.join (List.replicate ind "  ")

mutual

/-- Modelled from Python's `json.dumps(v, indent=2)` at nesting depth
`ind`, fuel-bounded; rationals with denominator 1 print as ints (no tool
under verification produces any other float). -/
def jsonDumps : Nat → Nat → PyVal → String
  | 0, _, _ => ""
  | _ + 1, _, .vint n => toString n
  | _ + 1, _, .vfloat q => if q.den = 1 then toString q.num ++ ".0" else toString q
  | _ + 1, _, .vstr s => jsonQuote s
  | _ + 1, _, .vbool b => if b then "true" else "false"
  | _ + 1, _, .vnull => "null"
  | fuel + 1, ind, .vlist xs =>
    if xs.isEmpty then "[]"
    else
      "[\n" ++ jsonDumpsElems fuel (ind + 1) xs ++ "\n" ++
        indentSpaces ind ++ "]"
  | fuel + 1, ind, .vdict kvs =>
    if kvs.isEmpty then "{}"
    else
      "\x7b\n" ++ jsonDumpsMembers fuel (ind + 1) kvs ++ "\n" ++
        indentSpaces ind ++ "\x7d"

/-- The `",\n"`-joined, indented elements of a dumped array. -/
def jsonDumpsElems : Nat → Nat → List PyVal → String
  | 0, _, _ => ""
  | _ + 1, _, [] => ""
  | fuel + 1, ind, [x] => indentSpaces ind ++ jsonDumps fuel ind x
  | fuel + 1, ind, x :: xs =>
    indentSpaces ind ++ jsonDumps fuel ind x ++ ",\n" ++
      jsonDumpsElems fuel ind xs

/-- The `",\n"`-joined, indented members of a dumped object. -/
def jsonDumpsMembers : Nat → Nat → List (String × PyVal) → String
  | 0, _, _ => ""
  | _ + 1, _, [] => ""
  | fuel + 1, ind, [(k, v)] =>
    indentSpaces ind ++ jsonQuote k ++ ": " ++ jsonDumps fuel ind v
  | fuel + 1, ind, (k, v) :: kvs =>
    indentSpaces ind ++ jsonQuote k ++ ": " ++ jsonDumps fuel ind v ++ ",\n" ++
      jsonDumpsMembers fuel ind kvs

end

/-- `json.dumps(v, indent=2)` at the top level. -/
def json_dumps (v : PyVal) : String := jsonDumps 1000 0 v

set_option linter.unusedVariables false in
/-- `JSONProcessorTool.execute(json_data, operation, key_path="")` from
`data_tools.py`: parse the JSON (a decode error is a logged failure
`"Invalid JSON: …"`), then dispatch on `operation`.  Every branch of the
dispatch — INCLUDING the final `else`, which builds the dict
`{"error": "Unknown operation: …"}` — falls through to `log_call(True)`
and a `success: True` envelope.  `key_path` is accepted and never used,
exactly as in the source. -/
def json_processor_execute (st : MCPToolState) (now : Nat)
    (json_data : String) (operation : String) (key_path : String) :
    ToolResult × MCPToolState :=
  match json_loads json_data with
  | .error e =>
    let error_msg := "Invalid JSON: " ++ e
    ({ success := false, fields := [("error", .vstr error_msg)] },
     log_call st now false (some error_msg))
  | .ok data =>
    let result : PyVal :=
      if operation = "validate" then
        .vdict [("valid", .vbool true), ("message", .vstr "JSON is valid")]
      else if operation = "format" then
        .vdict [("formatted", .vstr (json_dumps data))]
      else if operation = "extract_keys" then
        match data with
        | .vdict kvs => .vdict [("keys", .vlist (kvs.map (fun kv => .vstr kv.1)))]
        | _ => .vdict [("keys", .vlist []),
                       ("message", .vstr "Data is not a dictionary")]
      else if operation = "count_items" then
        match data with
        | .vdict kvs => .vdict [("count", .vint kvs.length),
                                ("type", .vstr "dictionary")]
        | .vlist xs => .vdict [("count", .vint xs.length), ("type", .vstr "list")]
        | _ => .vdict [("count", .vint 1), ("type", .vstr (pyTypeName data))]
      else
        .vdict [("error", .vstr ("Unknown operation: " ++ operation))]
    ({ success := true,
       fields := [("operation", .vstr operation), ("result", result)] },
     log_call st now true none)

/-- `JSONProcessorTool.__init__` from `data_tools.py`. -/
def JSONProcessorTool_init : MCPToolState :=
  MCPTool_init "json_processor" "Process and manipulate JSON data"

/-! ## EmailIntegrationTool (`office_tools.py`) -/

/-- A tool's extra keyword arguments (`**kwargs`): a Python dict of
argument name to value. -/
abbrev Args := List (String × PyVal)

/-- The demo-mode payload returned by
`EmailIntegrationTool._read_recent_emails`, transcribed from the source. -/
def emailReadRecentResult : ToolResult :=
  { success := true,
    fields :=
      [("operation", .vstr "read_recent"),
       ("emails", .vlist
         [.vdict [("subject", .vstr "Weekly Team Meeting"),
                  ("from", .vstr "manager@company.com"),
                  ("date", .vstr "2024-01-15"),
                  ("preview", .vstr "Hi team, let's schedule our weekly sync...")],
          .vdict [("subject", .vstr "Project Update Required"),
                  ("from", .vstr "project@company.com"),
                  ("date", .vstr "2024-01-14"),
                  ("preview", .vstr "Please provide status update on current tasks...")]]),
       ("count", .vint 2),
       ("note", .vstr "Demo mode - replace with actual IMAP implementation")] }

set_option linter.unusedVariables false in
/-- `EmailIntegrationTool.execute(operation, email_config, **kwargs)` from
`office_tools.py`.  The four enumerated operations dispatch to the private
helpers; `_read_recent_emails` and `_send_email` are demo-mode bodies that
call `log_call(True)`; `_search_emails` and `_get_unread_emails` DO NOT
EXIST on the class, so those two branches raise `AttributeError` inside
the `try`, which the tool's own handler converts into a logged failure
`"Email operation error: …"`.  The final `else` branch returns the
failure dict `{"success": False, "error": "Unknown operation: …"}`
directly, WITHOUT any `log_call` — the telemetry state is returned
untouched. -/
def email_execute (st : MCPToolState) (now : Nat) (operation : String)
    (email_config : PyVal) (kwargs : Args) : ToolResult × MCPToolState :=
  if operation = "read_recent" then
    (emailReadRecentResult, log_call st now true none)
  else if operation = "send_email" then
    ({ success := true,
       fields :=
         [("operation", .vstr "send_email"),
          ("to", (kwargs.lookup "to_email").getD .vnull),
          ("subject", (kwargs.lookup "subject").getD .vnull),
          ("message", .vstr "Email sent successfully (demo mode)"),
          ("note", .vstr "Demo mode - replace with actual SMTP implementation")] },
     log_call st now true none)
  else if operation = "search_emails" then
    let error_msg :=
      "Email operation error: 'EmailIntegrationTool' object has no attribute '_search_emails'"
    ({ success := false, fields := [("error", .vstr error_msg)] },
     log_call st now false (some error_msg))
  else if operation = "get_unread" then
    let error_msg :=
      "Email operation error: 'EmailIntegrationTool' object has no attribute '_get_unread_emails'"
    ({ success := false, fields := [("error", .vstr error_msg)] },
     log_call st now false (some error_msg))
  else
    ({ success := false,
       fields := [("error", .vstr ("Unknown operation: " ++ operation))] }, st)

/-- `EmailIntegrationTool.__init__` from `office_tools.py`. -/
def EmailIntegrationTool_init : MCPToolState :=
  MCPTool_init "email_integration" "Read, send, and search emails via IMAP/SMTP"

/-! ## The dispatcher: `SimpleToolRegistry.execute_tool` (`simple_server.py`)

A registered tool is its telemetry state plus its `execute` entry point.
Calling `self.tools[tool_name].execute(**kwargs)` is modelled as a
function from the keyword-argument dict and the current state to an
`Except` — the `.error` branch is a raised Python exception with its
`str(e)` message — together with the (possibly partially updated) state,
since Python mutations made before a raise persist. -/

/-- One registered tool instance: mutable telemetry state plus behaviour. -/
structure RegTool where
  state : MCPToolState
  exec : Args → MCPToolState → Nat → Except String ToolResult × MCPToolState

/-- `SimpleToolRegistry.tools`: the Python dict mapping tool name to tool
instance, modelled as an association list with first-match lookup (dict
keys are unique). -/
abbrev Registry := List (String × RegTool)

/-- Resolving `self.tools[tool_name]`. -/
def lookupTool : Registry → String → Option RegTool
  | [], _ => none
  | (n, t) :: rest, tool_name =>
    if n = tool_name then some t else lookupTool rest tool_name

/-- Writing the mutated tool state back into the registry (in Python the
instance is mutated in place). -/
def setToolState : Registry → String → MCPToolState → Registry
  | [], _, _ => []
  | (n, t) :: rest, tool_name, st =>
    if n = tool_name then (n, { t with state := st }) :: rest
    else (n, t) :: setToolState rest tool_name st

/-- `SimpleToolRegistry.execute_tool(tool_name, **kwargs)` from
`simple_server.py`: an unregistered name yields
`{"success": False, "error": "Tool '<name>' not found"}` with the registry
untouched; otherwise the tool's `execute` runs inside `try`, and any
exception it raises is caught and converted into
`{"success": False, "error": "Tool execution error: <str(e)>"}`.  There is
no argument validation at this layer. -/
def execute_tool (reg : Registry) (tool_name : String) (kwargs : Args)
    (now : Nat) : ToolResult × Registry :=
  match lookupTool reg tool_name with
  | none =>
    ({ success := false,
       fields := [("error", .vstr ("Tool '" ++ tool_name ++ "' not found"))] },
     reg)
  | some t =>
    match t.exec kwargs t.state now with
    | (.ok r, st') => (r, setToolState reg tool_name st')
    | (.error e, st') =>
      ({ success := false,
         fields := [("error", .vstr ("Tool execution error: " ++ e))] },
       setToolState reg tool_name st')

/-- The keyword-argument entry point of the calculator as the dispatcher
calls it: `CalculatorTool.execute(**kwargs)`.  A call with no
`"expression"` keyword raises `TypeError` BEFORE the body runs (modelled
with CPython's message), leaving the state untouched; a string value runs
`calculator_execute`.  Modelled from Python's calling convention for a
non-string value: the body's first operation (iterating the argument in
the character check, or `eval`) raises a `TypeError` inside the tool's
`try`, which the tool logs and converts to a `"Calculation error: …"`
failure — the exact message text of that case is abstracted as the type
name, and no claim depends on it. -/
def calc_exec_kw (kwargs : Args) (st : MCPToolState) (now : Nat) :
    Except String ToolResult × MCPToolState :=
  match kwargs.lookup "expression" with
  | none =>
    (.error "execute() missing 1 required positional argument: 'expression'", st)
  | some (.vstr e) =>
    let (r, st') := calculator_execute st now e
    (.ok r, st')
  | some v =>
    let error_msg := "Calculation error: TypeError on " ++ pyTypeName v ++ " argument"
    (.ok { success := false, fields := [("error", .vstr error_msg)] },
     log_call st now false (some error_msg))

/-- A registry holding the calculator, with a given telemetry state. -/
def calcRegistry (st : MCPToolState) : Registry :=
  [("calculator", { state := st, exec := calc_exec_kw })]

/-- A registered tool whose `execute` always raises an internal exception
with message `"boom"`, leaving its state untouched. -/
def raisingTool : RegTool :=
  { state := MCPTool_init "t" "d",
    exec := fun _ st _ => (.error "boom", st) }

/-- C2 (code bug): invoking `EmailIntegrationTool.execute` with an
operation value outside its enum (here `"bogus"`) returns the failure dict
`{"success": False, "error": "Unknown operation: bogus"}` WITHOUT any
`log_call`: the telemetry state comes back exactly as it went in, with
`call_count` still 0 — the invocation attempt reached the capability
instance yet updated its telemetry zero times, contradicting the spec's
"exactly once, never zero times". -/
theorem C2_unknown_op_skips_telemetry :
    email_execute EmailIntegrationTool_init 7 "bogus" (.vdict []) [] =
      ({ success := false,
         fields := [("error", .vstr "Unknown operation: bogus")] },
       EmailIntegrationTool_init) ∧
    (email_execute EmailIntegrationTool_init 7 "bogus" (.vdict []) []).2.call_count = 0 ∧
    (email_execute EmailIntegrationTool_init 7 "bogus" (.vdict []) []).2.last_called = none :=
  ⟨rfl, rfl, rfl⟩

/-- C3 (code bug): invoking `JSONProcessorTool.execute` with valid JSON
`"{}"` and an operation value `"bogus"` outside its enum returns a SUCCESS
envelope (`success = True`) whose `"result"` field is the dict
`{"error": "Unknown operation: bogus"}`, and the call is logged as a
success (`call_count` 1, no error entry) — contradicting the spec's
"handled as a Failure result". -/
theorem C3_unknown_op_returns_success :
    (json_processor_execute JSONProcessorTool_init 3 "{}" "bogus" "").1.success = true ∧
    (json_processor_execute JSONProcessorTool_init 3 "{}" "bogus" "").1.get "result" =
      some (.vdict [("error", .vstr "Unknown operation: bogus")]) ∧
    (json_processor_execute JSONProcessorTool_init 3 "{}" "bogus" "").2.call_count = 1 ∧
    (json_processor_execute JSONProcessorTool_init 3 "{}" "bogus" "").2.errors = [] :=
  ⟨rfl, rfl, rfl, rfl⟩

/-- C4 counterexample: dispatching the registered calculator through
`execute_tool` with the required `"expression"` argument omitted leaves the
whole registry — hence the calculator's telemetry — untouched: afterwards
its `call_count` is still 0 and its error list still empty, while the claim
requires `call_count` 1 and an appended `recent_errors` entry. -/
theorem C4_counterexample :
    (execute_tool (calcRegistry CalculatorTool_init) "calculator" [] 0).1.success = false ∧
    (lookupTool (execute_tool (calcRegistry CalculatorTool_init) "calculator" [] 0).2
        "calculator").map (fun t => t.state.call_count) = some 0 ∧
    (lookupTool (execute_tool (calcRegistry CalculatorTool_init) "calculator" [] 0).2
        "calculator").map (fun t => t.state.errors) = some [] :=
  ⟨rfl, rfl, rfl⟩

/-- C4 (amended): omitting the required `"expression"` parameter of the
registered calculator makes the Python call raise `TypeError` before the
tool body runs; the dispatcher catches it and returns the Failure
`"Tool execution error: execute() missing 1 required positional argument:
'expression'"`, and the capability's telemetry is NOT updated — the
registry comes back unchanged (no `call_count` increment, no
`recent_errors` entry), because no validation layer exists in
`SimpleToolRegistry.execute_tool`. -/
theorem C4_missing_required_param (st : MCPToolState) (args : Args) (now : Nat)
    (h : args.lookup "expression" = none) :
    execute_tool (calcRegistry st) "calculator" args now =
      ({ success := false,
         fields := [("error", .vstr
           ("Tool execution error: " ++
            "execute() missing 1 required positional argument: 'expression'"))] },
       calcRegistry st) := by
  simp [execute_tool, calcRegistry, lookupTool, calc_exec_kw, h, setToolState]

/-- C4 witness: the amended theorem at the empty argument dict on a fresh
calculator. -/
theorem C4_witness :
    execute_tool (calcRegistry CalculatorTool_init) "calculator" [] 0 =
      ({ success := false,
         fields := [("error", .vstr
           ("Tool execution error: " ++
            "execute() missing 1 required positional argument: 'expression'"))] },
       calcRegistry CalculatorTool_init) :=
  C4_missing_required_param CalculatorTool_init [] 0 rfl

/-- C5 counterexample: for the unregistered name `"does_not_exist"` the
dispatcher's error message is `"Tool 'does_not_exist' not found"`, not the
claimed `"unknown capability: does_not_exist"`. -/
theorem C5_counterexample :
    (execute_tool (calcRegistry CalculatorTool_init) "does_not_exist" [] 0).1.get
        "error" = some (.vstr "Tool 'does_not_exist' not found") ∧
    "Tool 'does_not_exist' not found" ≠ "unknown capability: does_not_exist" :=
  ⟨rfl, by decide⟩

/-- C5 (amended): for every name absent from the registry and any
arguments, `execute_tool` returns the Failure
`{"success": False, "error": "Tool '<name>' not found"}` and returns the
registry itself unchanged — no telemetry entry of any capability is
created or mutated. -/
theorem C5_unknown_tool_failure (reg : Registry) (tool_name : String)
    (args : Args) (now : Nat) (h : lookupTool reg tool_name = none) :
    execute_tool reg tool_name args now =
      ({ success := false,
         fields := [("error", .vstr ("Tool '" ++ tool_name ++ "' not found"))] },
       reg) := by
  unfold execute_tool
  rw [h]

/-- C5 witness: the amended theorem at the registry holding only the fresh
calculator and the name `"does_not_exist"`. -/
theorem C5_witness :
    execute_tool (calcRegistry CalculatorTool_init) "does_not_exist" [] 0 =
      ({ success := false,
         fields := [("error", .vstr "Tool 'does_not_exist' not found")] },
       calcRegistry CalculatorTool_init) :=
  C5_unknown_tool_failure (calcRegistry CalculatorTool_init) "does_not_exist" [] 0 rfl

/-- C6: whenever a resolved capability's `execute` raises an internal
exception (the `.error` branch, message `e`), the dispatcher's `try/except`
converts it into the well-formed Failure
`{"success": False, "error": "Tool execution error: <e>"}` — the fault
never propagates past `execute_tool` to the caller. -/
theorem C6_exception_becomes_failure (reg : Registry) (tool_name : String)
    (args : Args) (now : Nat) (t : RegTool) (e : String) (st' : MCPToolState)
    (h1 : lookupTool reg tool_name = some t)
    (h2 : t.exec args t.state now = (.error e, st')) :
    execute_tool reg tool_name args now =
      ({ success := false,
         fields := [("error", .vstr ("Tool execution error: " ++ e))] },
       setToolState reg tool_name st') := by
  unfold execute_tool
  rw [h1]
  simp only [h2]

/-- C6 witness: a registered tool that always raises `"boom"`, dispatched
through `execute_tool`. -/
theorem C6_witness :
    execute_tool [("t", raisingTool)] "t" [] 0 =
      ({ success := false,
         fields := [("error", .vstr "Tool execution error: boom")] },
       setToolState [("t", raisingTool)] "t" (MCPTool_init "t" "d")) :=
  C6_exception_becomes_failure [("t", raisingTool)] "t" [] 0 raisingTool "boom"
    (MCPTool_init "t" "d") rfl rfl

/-- C7: invoking the calculator with `expression = "(10 + 5) * 2"` — both
directly and through the dispatcher — yields a Success whose `"result"`
field is the int `30`. -/
theorem C7_calculation_scenario :
    (calculator_execute CalculatorTool_init 0 "(10 + 5) * 2").1.success = true ∧
    (calculator_execute CalculatorTool_init 0 "(10 + 5) * 2").1.get "result" =
      some (.vint 30) ∧
    (execute_tool (calcRegistry CalculatorTool_init) "calculator"
        [("expression", .vstr "(10 + 5) * 2")] 0).1.get "result" =
      some (.vint 30) :=
  ⟨rfl, rfl, rfl⟩

/-- C8: invoking a fresh calculator with `expression = "import os"`
(characters outside the whitelist) yields a Failure whose message is
`"Expression contains invalid characters"`, and afterwards the exported
stats show `call_count = 1` and `error_count = 1`. -/
theorem C8_invalid_characters_scenario :
    (calculator_execute CalculatorTool_init 0 "import os").1.success = false ∧
    (calculator_execute CalculatorTool_init 0 "import os").1.get "error" =
      some (.vstr "Expression contains invalid characters") ∧
    (get_stats (calculator_execute CalculatorTool_init 0 "import os").2).call_count = 1 ∧
    (get_stats (calculator_execute CalculatorTool_init 0 "import os").2).error_count = 1 :=
  ⟨rfl, rfl, rfl, rfl⟩

end MCPServer

namespace MCPServer

/-- C1 (amended): the exported snapshot field `recent_errors` of
`get_stats` never holds more than 3 entries — its length is
`min (len errors) 3` — and it is a suffix of the internal error list, so the
OLDEST entries are the ones dropped from the export (FIFO).  The internal
stored list itself is NOT bounded (see the counterexample). -/
theorem C1_snapshot_recent_errors_bounded (st : MCPToolState) :
    (get_stats st).recent_errors.length = min st.errors.length 3 ∧
    (get_stats st).recent_errors <:+ st.errors := by
  unfold get_stats
  by_cases h : st.errors.isEmpty
  · simp only [h, if_pos]
    have he : st.errors = [] := List.isEmpty_iff.mp h
    simp [he]
  · simp only [h, if_neg, Bool.false_eq_true, not_false_iff]
    constructor
    · rw [List.length_drop]
      omega
    · exact List.drop_suffix _ _

/-- C1 counterexample: after 4 recorded failures on a fresh calculator
telemetry state, the STORED error list holds 4 entries — the claim that the
stored list is bounded at 3 at all times (not merely truncated in the
snapshot) is false. -/
theorem C1_counterexample :
    ¬ ((run_log_calls (MCPTool_init "calculator" "Perform mathematical calculations")
        [(1, false, some "e1"), (2, false, some "e2"),
         (3, false, some "e3"), (4, false, some "e4")]).errors.length ≤ 3) := by
  decide

/-- C9: the invariant `call_count ≥ len(errors)` holds in the initial state
produced by `MCPTool.__init__` and is preserved by every `log_call` update,
for any success flag and any optional error message: an error entry is only
ever appended together with a `call_count` increment.  It carries over to
the exported snapshot: under the invariant,
`call_count ≥ len(recent_errors)` in `get_stats`. -/
theorem C9_call_count_ge_errors :
    (∀ name description : String,
      (MCPTool_init name description).errors.length ≤
        (MCPTool_init name description).call_count) ∧
    (∀ (st : MCPToolState) (now : Nat) (success : Bool) (error : Option String),
      st.errors.length ≤ st.call_count →
      (log_call st now success error).errors.length ≤
        (log_call st now success error).call_count) ∧
    (∀ st : MCPToolState, st.errors.length ≤ st.call_count →
      (get_stats st).recent_errors.length ≤ (get_stats st).call_count) := by
  refine ⟨?_, ?_, ?_⟩
  · intro name description
    simp [MCPTool_init]
  · intro st now success error h
    unfold log_call
    by_cases hc : (!success && pyTruthyStr error) = true
    · simp only [hc, if_pos, List.length_append, List.length_cons, List.length_nil]
      omega
    · simp only [hc, if_neg, Bool.false_eq_true, not_false_iff]
      omega
  · intro st h
    unfold get_stats
    by_cases hc : st.errors.isEmpty
    · simp [hc]
    · simp only [hc, if_neg, Bool.false_eq_true, not_false_iff, List.length_drop]
      omega

/-- C9 witness: the invariant-preservation part applied at a concrete state
with one prior call and one prior error, updated by a failed call. -/
theorem C9_witness :
    (log_call { name := "t", description := "d", call_count := 1,
                last_called := some 0,
                errors := [{ time := 0, error := "e" }] } 5 false (some "x")).errors.length ≤
      (log_call { name := "t", description := "d", call_count := 1,
                  last_called := some 0,
                  errors := [{ time := 0, error := "e" }] } 5 false (some "x")).call_count :=
  C9_call_count_ge_errors.2.1
    { name := "t", description := "d", call_count := 1, last_called := some 0,
      errors := [{ time := 0, error := "e" }] } 5 false (some "x") (by decide)

/-- C10: `log_call(success=False, error=None)` increments `call_count` and
sets `last_called`, but appends nothing to the error history (Python
`if not success and error:` is false for `error=None`), so the failure is
absent from the exported `error_count` and `recent_errors`; the same holds
for an empty error string, which is also falsy in Python. -/
theorem C10_none_error_not_recorded (st : MCPToolState) (now : Nat) :
    (log_call st now false none).call_count = st.call_count + 1 ∧
    (log_call st now false none).last_called = some now ∧
    (log_call st now false none).errors = st.errors ∧
    (get_stats (log_call st now false none)).error_count =
      (get_stats st).error_count ∧
    (get_stats (log_call st now false none)).recent_errors =
      (get_stats st).recent_errors ∧
    (log_call st now false (some "")).errors = st.errors := by
  refine ⟨rfl, rfl, rfl, ?_, ?_, rfl⟩ <;> simp [log_call, get_stats, pyTruthyStr]

end MCPServer
